import Mathlib

/-!
Verification development for the wtvr3d rendering engine core.

The Rust sources under `src/renderer/material.rs`, `src/renderer/mod.rs`
and `src/system/lighting_system.rs` are embedded shallowly below:
pure functions become Lean functions, `&mut self` methods become explicit
state passing (the method returns the updated value), and the WebGL
rendering context is modelled as a deterministic record of response
functions, with device calls recorded in explicit event traces where a
property observes them.  Machine floats (`f32`) are modelled by `ℚ`,
which is faithful to the arithmetic expressions the properties are about.
-/

/-! ## String helpers

The Rust code uses `str::contains` and `str::replace` (replace every
non-overlapping occurrence, scanning left to right).  They are embedded
as fuel-indexed structural recursions over character lists so that the
kernel can evaluate them on concrete inputs. -/

/-- `listStartsWith pat l` is true iff `pat` is an initial segment of `l`. -/
def listStartsWith : List Char → List Char → Bool
  | [], _ => true
  | _ :: _, [] => false
  | p :: ps, c :: cs => p == c && listStartsWith ps cs

/-- `listContainsSub pat l` is true iff `pat` occurs as a contiguous
subsequence of `l` (semantics of Rust `str::contains`). -/
def listContainsSub (pat : List Char) : List Char → Bool
  | [] => listStartsWith pat []
  | c :: rest => listStartsWith pat (c :: rest) || listContainsSub pat rest

/-- Replace every non-overlapping occurrence of `pat` in the list, scanning
left to right; `fuel` bounds the recursion and is chosen as the input
length, which is enough because every step consumes at least one
character. -/
def replaceListAux (pat repl : List Char) : Nat → List Char → List Char
  | _, [] => []
  | 0, s => s
  | fuel + 1, c :: rest =>
    if listStartsWith pat (c :: rest) then
      repl ++ replaceListAux pat repl fuel ((c :: rest).drop pat.length)
    else
      c :: replaceListAux pat repl fuel rest

/-- Model of Rust `str::contains` on `String`. -/
def strContains (s pat : String) : Bool :=
  listContainsSub pat.data s.data

/-- Model of Rust `str::replace` on `String` (replace all non-overlapping
occurrences, left to right). -/
def strReplace (s pat repl : String) : String :=
  ⟨replaceListAux pat.data repl.data s.data.length s.data⟩

/-! ## The abstract graphics device

`WebGlRenderingContext` (out of scope per the specification, consumed as
an abstract capability) is modelled as a deterministic record of response
functions: shader handles are identified by their stage and source text,
program handles by their two stages. -/

/-- WebGL constant `VERTEX_SHADER`. -/
def VERTEX_SHADER : Nat := 35633

/-- WebGL constant `FRAGMENT_SHADER`. -/
def FRAGMENT_SHADER : Nat := 35632

/-- A compiled shader stage handle, identified by stage kind and the exact
source text handed to the device. -/
structure Shader where
  shader_type : Nat
  source : String
deriving DecidableEq

/-- A linked program handle, identified by its two stages. -/
structure Prog where
  vertex : Shader
  fragment : Shader
deriving DecidableEq

/-- Deterministic model of the graphics device: each field answers one
kind of device call. -/
structure GlContext where
  /-- Whether `create_shader` succeeds for a given stage kind. -/
  create_shader : Nat → Bool
  /-- Compile status reported for a stage kind and source text. -/
  compile_ok : Nat → String → Bool
  /-- The shader info log the backend reports for a failed stage. -/
  shader_info_log : Nat → String → Option String
  /-- Whether `create_program` succeeds. -/
  create_program : Bool
  /-- Link status reported for a pair of compiled stages. -/
  link_ok : Shader → Shader → Bool
  /-- The program info log the backend reports for a failed link. -/
  program_info_log : Shader → Shader → Option String
  /-- `get_uniform_location` for a program and a uniform name. -/
  uniform_location : Option Prog → String → Option Nat

/-- Embedding of `compile_shader` (src/renderer/material.rs): create a
shader object, hand it the source, compile, and on failure return the
backend info log (or the fixed fallback text). -/
def compile_shader (context : GlContext) (shader_type : Nat) (source : String) :
    Except String Shader :=
  if context.create_shader shader_type then
    let shader : Shader := { shader_type := shader_type, source := source }
    if context.compile_ok shader_type source then
      Except.ok shader
    else
      Except.error ((context.shader_info_log shader_type source).getD
        "Unknown error creating shader")
  else
    Except.error "Unable to create shader object"

/-- Embedding of `link_program` (src/renderer/material.rs): create a
program object, attach both stages, link, and on failure return the
backend info log (or the fixed fallback text). -/
def link_program (context : GlContext) (vert_shader frag_shader : Shader) :
    Except String Prog :=
  if context.create_program then
    let program : Prog := { vertex := vert_shader, fragment := frag_shader }
    if context.link_ok vert_shader frag_shader then
      Except.ok program
    else
      Except.error ((context.program_info_log vert_shader frag_shader).getD
        "Unknown error creating program object")
  else
    Except.error "Unable to create shader object"

/-! ## Light configuration and uniforms -/

/-- Modelled from the spec: the `LightConfiguration` type referenced by
`src/renderer/material.rs` is declared in a renderer file that is not
under `src/`; per the specification glossary it is the tuple of
directional/point/spot light counts, defaulting to all zero. -/
structure LightConfiguration where
  directional : Nat
  point : Nat
  spot : Nat
deriving DecidableEq, BEq

/-- A device query issued while resolving uniform locations. -/
inductive Query where
  | uniformQuery (name : String)
deriving DecidableEq

/-- Modelled from the spec: the `Uniform` type of `src/renderer/uniform.rs`
is not under `src/`; per the specification a uniform is a named shader
input carrying a cached device-side location. -/
structure Uniform where
  name : String
  location : Option Nat
deriving DecidableEq

/-- Modelled from the spec: `Uniform::lookup_location` resolves the named
shader input to its device-side location against the given program,
issuing one device query. -/
def Uniform.lookup_location (context : GlContext) (program : Option Prog)
    (u : Uniform) : Uniform × List Query :=
  ({ u with location := context.uniform_location program u.name },
   [Query.uniformQuery u.name])

/-- Resolve the locations of a keyed uniform list in order, concatenating
the device queries each resolution issues. -/
def lookupUniformList (context : GlContext) (program : Option Prog) :
    List (String × Uniform) → List (String × Uniform) × List Query
  | [] => ([], [])
  | (n, u) :: rest =>
    let r := u.lookup_location context program
    let rs := lookupUniformList context program rest
    ((n, r.1) :: rs.1, r.2 ++ rs.2)

/-- Modelled from the spec: the view-projection uniform name constant
(`uniform::VP_MATRIX_NAME`, file not under `src/`). -/
def VP_MATRIX_NAME : String := "u_VPMatrix"

/-- Modelled from the spec: `GlobalUniformLocations`
(src/renderer/uniform.rs, not under `src/`) holds the resolved locations
of global uniforms; the view-projection matrix location is the one the
claims observe. -/
structure GlobalUniformLocations where
  vp_matrix_location : Option Nat
deriving DecidableEq

/-- Modelled from the spec: `GlobalUniformLocations::lookup_locations`
resolves the global uniform locations against the given program. -/
def GlobalUniformLocations.lookup_locations (context : GlContext)
    (program : Option Prog) (_light_config : LightConfiguration)
    (_g : GlobalUniformLocations) : GlobalUniformLocations × List Query :=
  ({ vp_matrix_location := context.uniform_location program VP_MATRIX_NAME },
   [Query.uniformQuery VP_MATRIX_NAME])

/-! ## Material (src/renderer/material.rs) -/

/-- Embedding of `Material` (src/renderer/material.rs).  The `opaque`
field of the source is rendered `opaq` here.  `attribute_locations`
models the `HashMap<String, i32>` as an association list. -/
structure Material where
  program : Option Prog
  opaq : Bool
  lit : Bool
  vertex_shader : String
  fragment_shader : String
  attribute_locations : List (String × Int)
  shared_uniforms : List (String × Uniform)
  id : String
  global_uniform_locations : GlobalUniformLocations
  light_configuration : LightConfiguration
  lookup_done : Bool
deriving DecidableEq

/-- Embedding of `Material::new`: stores the sources verbatim, infers
`lit` from the presence of the substring `"Light"` in either source, and
leaves the program unset. -/
def Material.new (vert frag id : String) : Material :=
  { program := none
    opaq := true
    lit := strContains vert "Light" || strContains frag "Light"
    vertex_shader := vert
    fragment_shader := frag
    attribute_locations := []
    shared_uniforms := []
    id := id
    global_uniform_locations := { vp_matrix_location := none }
    light_configuration := { directional := 0, point := 0, spot := 0 }
    lookup_done := false }

/-- Embedding of `Material::replace_light_constants`: neutralize any
`#define` of the light-count macros, then substitute the macros by the
concrete counts. -/
def Material.replace_light_constants (shader : String)
    (light_config : LightConfiguration) : String :=
  strReplace (strReplace (strReplace (strReplace (strReplace (strReplace
    shader
    "#define NUM_DIR_LIGHTS" "//")
    "#define NUM_POINT_LIGHTS" "//")
    "#define NUM_SPOT_LIGHTS" "//")
    "NUM_DIR_LIGHTS" (toString light_config.directional))
    "NUM_POINT_LIGHTS" (toString light_config.point))
    "NUM_SPOT_LIGHTS" (toString light_config.spot)

/-- Embedding of `Material::compile`.  The method mutates `self`, so the
embedding returns the updated material together with the `Result`: it
clears `lookup_done`, substitutes the light counts into both sources,
compiles both stages, links them, and only on full success stores the new
program. -/
def Material.compile (context : GlContext) (m : Material)
    (light_config : LightConfiguration) : Material × Except String Unit :=
  let m := { m with lookup_done := false }
  let vertex_text := Material.replace_light_constants m.vertex_shader light_config
  let fragment_text := Material.replace_light_constants m.fragment_shader light_config
  match compile_shader context VERTEX_SHADER vertex_text with
  | Except.error e => (m, Except.error e)
  | Except.ok vertex =>
    match compile_shader context FRAGMENT_SHADER fragment_text with
    | Except.error e => (m, Except.error e)
    | Except.ok fragment =>
      match link_program context vertex fragment with
      | Except.error e => (m, Except.error e)
      | Except.ok p => ({ m with program := some p }, Except.ok ())

/-- Embedding of `Material::should_compile`. -/
def Material.should_compile (m : Material) (light_config : LightConfiguration) :
    Bool :=
  m.program.isNone || (m.lit && light_config != m.light_configuration)

/-- Embedding of `Material::set_transparent`. -/
def Material.set_transparent (m : Material) (transparent : Bool) : Material :=
  { m with opaq := !transparent }

/-- Embedding of `Material::is_transparent`. -/
def Material.is_transparent (m : Material) : Bool :=
  !m.opaq

/-- Embedding of `Material::lookup_locations`: a no-op once
`lookup_done` is set, otherwise resolves the global uniform locations and
then each shared uniform, and sets `lookup_done`.  The device queries
issued are returned alongside the updated material. -/
def Material.lookup_locations (context : GlContext)
    (light_config : LightConfiguration) (m : Material) : Material × List Query :=
  if m.lookup_done then (m, [])
  else
    let g := m.global_uniform_locations.lookup_locations context m.program light_config
    let us := lookupUniformList context m.program m.shared_uniforms
    ({ m with
        global_uniform_locations := g.1
        shared_uniforms := us.1
        lookup_done := true },
     g.2 ++ us.2)


/-! ## MaterialInstance (src/renderer/material.rs)

A `MaterialInstance` holds its parent `Material` behind an
`Rc<RefCell<...>>`.  The embedding inlines the contents of that shared
cell as the `parent_material` field: a mutation of the parent material is
reflected by replacing that field (`MaterialInstance.withParent`), which
models what every instance aliasing the cell observes. -/

/-- Embedding of `MaterialInstance` (src/renderer/material.rs). -/
structure MaterialInstance where
  parent_material : Material
  uniforms : List (String × Uniform)
  id : String
  lookup_done : Bool
deriving DecidableEq

/-- Embedding of `MaterialInstance::new`. -/
def MaterialInstance.new (parent_material : Material) (id : String) :
    MaterialInstance :=
  { parent_material := parent_material
    uniforms := []
    id := id
    lookup_done := false }

/-- The view an instance has of the shared parent cell after the parent
`Material` has been mutated through the `Rc<RefCell<...>>` handle. -/
def MaterialInstance.withParent (inst : MaterialInstance) (p : Material) :
    MaterialInstance :=
  { inst with parent_material := p }

/-- Embedding of `MaterialInstance::lookup_locations`: a no-op once
`lookup_done` is set, otherwise first forces the parent lookup through
the shared cell, then resolves the instance uniforms against the parent
program, and sets `lookup_done`. -/
def MaterialInstance.lookup_locations (context : GlContext)
    (light_config : LightConfiguration) (inst : MaterialInstance) :
    MaterialInstance × List Query :=
  if inst.lookup_done then (inst, [])
  else
    let p := inst.parent_material.lookup_locations context light_config
    let us := lookupUniformList context p.1.program inst.uniforms
    ({ inst with
        parent_material := p.1
        uniforms := us.1
        lookup_done := true },
     p.2 ++ us.2)

/-- Embedding of `MaterialInstance::is_transparent`: delegates to the
parent material. -/
def MaterialInstance.is_transparent (inst : MaterialInstance) : Bool :=
  inst.parent_material.is_transparent

/-! ## Renderer (src/renderer/mod.rs)

The mesh repository `HashMap<u32, Vec<Rc<RefCell<Mesh>>>>` is embedded as
an association list of buckets; quantifying over the list covers every
iteration order of the hash map.  The device calls `render_objects`
issues are recorded as an explicit event trace. -/

/-- Modelled from the spec: the drawable component `Mesh`
(src/component/mesh.rs is not under `src/`): it carries its
`MaterialInstance`, the numeric material key assigned at registration
(what `get_parent_id` returns during rendering), its vertex buffers and
its vertex count. -/
structure Mesh where
  mesh_id : Nat
  material : MaterialInstance
  parent_key : Nat
  buffers : List Nat
  vertex_count : Nat
deriving DecidableEq

/-- Transparency of a drawable, as read by the renderer
(`mesh.material.is_transparent()`). -/
def Mesh.is_transparent (m : Mesh) : Bool :=
  m.material.is_transparent

/-- The renderer mesh repository: buckets of drawables keyed by material
key, in some iteration order. -/
def MeshRepository : Type := List (Nat × List Mesh)

/-- All registered drawables of a repository, in iteration order. -/
def MeshRepository.all (repo : MeshRepository) : List Mesh :=
  (List.map Prod.snd repo).flatten

/-- One iteration of the bucket scan of `Renderer::sort_objects`: push a
transparent drawable onto the transparent list, an opaque one onto the
opaque list. -/
def sort_step (acc : List Mesh × List Mesh) (mesh : Mesh) :
    List Mesh × List Mesh :=
  if mesh.is_transparent then (acc.1, acc.2 ++ [mesh])
  else (acc.1 ++ [mesh], acc.2)

/-- Embedding of `Renderer::sort_objects`: scan every bucket, pushing
opaque drawables onto one list and transparent ones onto another, then
append the transparent list after the opaque one. -/
def sort_objects (mesh_repository : MeshRepository) : List Mesh :=
  let p := (MeshRepository.all mesh_repository).foldl sort_step ([], [])
  p.1 ++ p.2

/-- The device calls observable during `render_objects`.
`setSharedUniform` is only ever emitted by the specification-side trace
`render_objects_claimed` below; the code-side trace never produces it. -/
inductive RenderEvent where
  | clearColor
  | clearBuffers
  | enableCullFace
  | enableDepthTest
  | useProgram (program : Option Prog)
  | setVpUniform (loc : Option Nat)
  | setSharedUniform (name : String)
  | bindBuffer (b : Nat)
  | drawArrays (n : Nat)
deriving DecidableEq

/-- Embedding of `Renderer::set_camera_uniform`: one device write of the
view-projection matrix at the location cached by the parent material. -/
def set_camera_uniform (mesh : Mesh) : List RenderEvent :=
  [RenderEvent.setVpUniform
    mesh.material.parent_material.global_uniform_locations.vp_matrix_location]

/-- Embedding of `Renderer::draw_mesh`: bind every buffer, then issue the
triangle draw call with the vertex count of the mesh. -/
def draw_mesh (mesh : Mesh) : List RenderEvent :=
  List.map RenderEvent.bindBuffer mesh.buffers
    ++ [RenderEvent.drawArrays mesh.vertex_count]

/-- `u32::max_value()`, the initial value of `current_id` in
`render_objects`. -/
def U32_MAX : Nat := 4294967295

/-- Embedding of the loop of `Renderer::render_objects`: whenever the
material key of the current drawable differs from `current_id`, activate
the program of the parent material and set the camera uniform, then draw
the mesh. -/
def render_objects_loop : List Mesh → Nat → List RenderEvent
  | [], _ => []
  | mesh :: rest, current_id =>
    let material_id := mesh.parent_key
    if material_id ≠ current_id then
      (RenderEvent.useProgram mesh.material.parent_material.program
          :: set_camera_uniform mesh ++ draw_mesh mesh)
        ++ render_objects_loop rest material_id
    else
      draw_mesh mesh ++ render_objects_loop rest current_id

/-- Embedding of `Renderer::render_objects`: clear, enable culling and
depth test, sort the repository, then run the draw loop with `current_id`
initialized to `u32::max_value()`. -/
def render_objects (repo : MeshRepository) : List RenderEvent :=
  [RenderEvent.clearColor, RenderEvent.clearBuffers,
   RenderEvent.enableCullFace, RenderEvent.enableDepthTest]
    ++ render_objects_loop (sort_objects repo) U32_MAX

/-- The render trace claim C2 describes, written from the words of the
specification: at every material-key boundary the renderer activates the
program of that material and pushes the shared view-projection uniform
AND the other shared uniforms of the material into the bound program;
every drawable is then drawn. -/
def render_objects_claimed_loop : List Mesh → Nat → List RenderEvent
  | [], _ => []
  | mesh :: rest, prev =>
    (if mesh.parent_key ≠ prev then
        RenderEvent.useProgram mesh.material.parent_material.program
          :: set_camera_uniform mesh
          ++ List.map (fun u => RenderEvent.setSharedUniform u.1)
              mesh.material.parent_material.shared_uniforms
      else [])
      ++ draw_mesh mesh
      ++ render_objects_claimed_loop rest mesh.parent_key

/-- The full render trace claim C2 describes (specification side). -/
def render_objects_claimed (repo : MeshRepository) : List RenderEvent :=
  [RenderEvent.clearColor, RenderEvent.clearBuffers,
   RenderEvent.enableCullFace, RenderEvent.enableDepthTest]
    ++ render_objects_claimed_loop (sort_objects repo) U32_MAX

/-- The device calls the amended claim attributes to one drawable paired
with the material key of the drawable before it: a program activation and
one view-projection push iff the two keys differ (a material-key
boundary), then the draw of the mesh — and nothing else; no other shared
uniform is pushed. -/
def amended_piece (p : Mesh × Nat) : List RenderEvent :=
  (if p.1.parent_key ≠ p.2 then
      RenderEvent.useProgram p.1.material.parent_material.program
        :: set_camera_uniform p.1
    else [])
    ++ draw_mesh p.1

/-- The amended render trace: written from the amended claim, with the
boundary structure made explicit by pairing each drawable of the sorted
list with the key of the drawable before it (the sentinel
`u32::max_value()` before the first). -/
def render_objects_amended (repo : MeshRepository) : List RenderEvent :=
  let meshes := sort_objects repo
  [RenderEvent.clearColor, RenderEvent.clearBuffers,
   RenderEvent.enableCullFace, RenderEvent.enableDepthTest]
    ++ (List.map amended_piece
        (meshes.zip (U32_MAX :: List.map Mesh.parent_key meshes))).flatten

/-! ## Lighting system (src/system/lighting_system.rs)

The entity join of `(&entities, &lights, &enableds)` visits every
entity carrying both a `Light` and an `Enabled` component; the embedding
takes the list of light-carrying entities with an `enabled` flag for the
presence of `Enabled`.  World matrices, directions and cones are opaque
to the lighting system (it only copies them into buckets), so their types
are parameters `M`, `D`, `C`. -/

/-- A 3-component vector of rationals, modelling `Vector3<f32>`. -/
abbrev Vec3 : Type := ℚ × ℚ × ℚ

/-- Componentwise vector addition. -/
def vadd (a b : Vec3) : Vec3 :=
  (a.1 + b.1, a.2.1 + b.2.1, a.2.2 + b.2.2)

/-- Scaling of a vector by a scalar on the right, as in
`ambiant.color * ambiant.intensity`. -/
def vscale (v : Vec3) (s : ℚ) : Vec3 :=
  (v.1 * s, v.2.1 * s, v.2.2 * s)

/-- Modelled from the spec together with the literal at line 33 of
src/system/lighting_system.rs: the `Light` component has a color, an
intensity and an attenuation. -/
structure Light where
  color : Vec3
  intensity : ℚ
  attenuation : ℚ
deriving DecidableEq

/-- Modelled from the spec: the `Transform` component
(src/component is not under `src/`) exposes `get_world_matrix`, the world
matrix produced by the transform graph; matrix computation itself is out
of scope for the lighting system, which only copies the value. -/
structure Transform (M : Type) where
  world_matrix : M
deriving DecidableEq

/-- Embedding of `Transform::get_world_matrix` at the lighting-system
interface. -/
def Transform.get_world_matrix {M : Type} (t : Transform M) : M :=
  t.world_matrix

/-- A light-carrying entity as the lighting system sees it: its `Light`
component, whether it has an `Enabled` component, and its optional
`Transform`, `Direction` and `Cone` components. -/
structure LightEntity (M D C : Type) where
  light : Light
  enabled : Bool
  transform : Option (Transform M)
  direction : Option D
  cone : Option C
deriving DecidableEq

/-- Embedding of `LightRepository` (src/system/lighting_system.rs). -/
structure LightRepository (M D C : Type) where
  ambiant : Option Light
  directional : List (Light × D)
  point : List (Light × M)
  spot : List (Light × M × D × C)
deriving DecidableEq

/-- One iteration of the entity loop of `LightingSystem::run`, mirroring
the if-let chain of the source; the accumulator carries the repository
under construction, the running ambient light and the `some_ambiant`
flag. -/
def lighting_step {M D C : Type}
    (acc : LightRepository M D C × Light × Bool) (e : LightEntity M D C) :
    LightRepository M D C × Light × Bool :=
  let repo := acc.1
  let ambiant := acc.2.1
  let some_ambiant := acc.2.2
  let direction_opt := e.direction
  let transform_opt := e.transform
  let cone_opt := e.cone
  match direction_opt, cone_opt with
  | some direction, none =>
    ({ repo with directional := repo.directional ++ [(e.light, direction)] },
     ambiant, some_ambiant)
  | _, _ =>
    match transform_opt, cone_opt, direction_opt with
    | some transform, none, none =>
      ({ repo with point := repo.point ++ [(e.light, transform.get_world_matrix)] },
       ambiant, some_ambiant)
    | _, _, _ =>
      match direction_opt, cone_opt, transform_opt with
      | some direction, some cone, some transform =>
        ({ repo with
            spot := repo.spot
              ++ [(e.light, transform.get_world_matrix, direction, cone)] },
         ambiant, some_ambiant)
      | _, _, _ =>
        match transform_opt, cone_opt, direction_opt with
        | none, none, none =>
          (repo,
           { color := vadd (vscale ambiant.color ambiant.intensity)
                (vscale e.light.color e.light.intensity)
             intensity := ambiant.intensity + e.light.intensity
             attenuation := ambiant.attenuation },
           true)
        | _, _, _ => acc

/-- Embedding of `LightingSystem::run`: clear all four buckets of the
repository handed in, fold the entity loop over every enabled
light-carrying entity, and store the accumulated ambient light iff at
least one ambient-shaped light was seen. -/
def LightingSystem.run {M D C : Type} (entities : List (LightEntity M D C))
    (light_repository : LightRepository M D C) : LightRepository M D C :=
  let light_repository :=
    { light_repository with
        ambiant := none, directional := [], point := [], spot := [] }
  let ambiant : Light := { color := (0, 0, 0), intensity := 0, attenuation := 0 }
  let r := (entities.filter (fun e => e.enabled)).foldl lighting_step
    (light_repository, ambiant, false)
  if r.2.2 then { r.1 with ambiant := some r.2.1 } else r.1

/-! ## Specification-side bucket descriptions for the lighting system -/

/-- The directional bucket as the specification describes it: the enabled
entities with a direction and no cone, in order. -/
def directional_of {M D C : Type} (entities : List (LightEntity M D C)) :
    List (Light × D) :=
  (entities.filter (fun e => e.enabled)).filterMap fun e =>
    match e.direction, e.cone with
    | some d, none => some (e.light, d)
    | _, _ => none

/-- The point bucket as the specification describes it: the enabled
entities with a transform, no cone and no direction, keyed by their world
matrix, in order. -/
def point_of {M D C : Type} (entities : List (LightEntity M D C)) :
    List (Light × M) :=
  (entities.filter (fun e => e.enabled)).filterMap fun e =>
    match e.transform, e.cone, e.direction with
    | some t, none, none => some (e.light, t.get_world_matrix)
    | _, _, _ => none

/-- The spot bucket as the specification describes it: the enabled
entities with a direction, a cone and a transform, in order. -/
def spot_of {M D C : Type} (entities : List (LightEntity M D C)) :
    List (Light × M × D × C) :=
  (entities.filter (fun e => e.enabled)).filterMap fun e =>
    match e.direction, e.cone, e.transform with
    | some d, some cone, some t => some (e.light, t.get_world_matrix, d, cone)
    | _, _, _ => none

/-- The lights folded into the ambient blend: the enabled entities with
no transform, no cone and no direction, in order. -/
def ambient_lights_of {M D C : Type} (entities : List (LightEntity M D C)) :
    List Light :=
  (entities.filter (fun e => e.enabled)).filterMap fun e =>
    match e.transform, e.cone, e.direction with
    | none, none, none => some e.light
    | _, _, _ => none

/-- The running ambient blend step, written from the words of the claim:
the new color is `old_color * old_intensity + light.color *
light.intensity` and the new intensity is `old_intensity +
light.intensity`. -/
def ambient_blend_step (old : Light) (l : Light) : Light :=
  { color := vadd (vscale old.color old.intensity) (vscale l.color l.intensity)
    intensity := old.intensity + l.intensity
    attenuation := old.attenuation }

/-- The aggregated ambient light as the specification describes it:
`none` when no ambient-shaped light is present, otherwise the running
blend starting from color `(0,0,0)` and intensity `0`. -/
def ambient_of {M D C : Type} (entities : List (LightEntity M D C)) :
    Option Light :=
  let ls := ambient_lights_of entities
  if ls.isEmpty then none
  else some (ls.foldl ambient_blend_step
    { color := (0, 0, 0), intensity := 0, attenuation := 0 })

/-! ## Concrete inputs used by witnesses and counterexamples -/

/-- A device on which every operation succeeds. -/
def ctx_all_ok : GlContext :=
  { create_shader := fun _ => true
    compile_ok := fun _ _ => true
    shader_info_log := fun _ _ => none
    create_program := true
    link_ok := fun _ _ => true
    program_info_log := fun _ _ => none
    uniform_location := fun _ _ => some 0 }

/-- A device on which every shader stage fails to compile, reporting a
diagnostic text. -/
def ctx_stage_fails : GlContext :=
  { create_shader := fun _ => true
    compile_ok := fun _ _ => false
    shader_info_log := fun _ _ => some "ERROR: 0:1: syntax error"
    create_program := true
    link_ok := fun _ _ => true
    program_info_log := fun _ _ => none
    uniform_location := fun _ _ => none }

/-- A material that already owns a working program. -/
def mat_with_program : Material :=
  { Material.new "v" "f" "m0" with
      program := some { vertex := { shader_type := VERTEX_SHADER, source := "v" }
                        fragment := { shader_type := FRAGMENT_SHADER, source := "f" } } }

/-- A lit material (its vertex source mentions `Light`). -/
def lit_material : Material := Material.new "Light v" "f" "parent"

/-- An instance of `lit_material` whose location lookup has been done. -/
def inst_resolved : MaterialInstance :=
  { MaterialInstance.new lit_material "inst" with lookup_done := true }

/-- A parent material carrying one shared uniform. -/
def parent_for_lookup : Material :=
  { Material.new "v" "f" "P" with
      shared_uniforms := [("u_Color", { name := "u_Color", location := none })] }

/-- A fresh instance of `parent_for_lookup` carrying one instance
uniform. -/
def inst_unresolved : MaterialInstance :=
  { MaterialInstance.new parent_for_lookup "I" with
      uniforms := [("u_Model", { name := "u_Model", location := none })] }

/-- An opaque demo material. -/
def mat_A : Material := Material.new "vA" "fA" "A"

/-- A transparent demo material. -/
def mat_B : Material := (Material.new "vB" "fB" "B").set_transparent true

/-- First opaque drawable of `mat_A`. -/
def mesh_A1 : Mesh :=
  { mesh_id := 1, material := MaterialInstance.new mat_A "iA1"
    parent_key := 0, buffers := [10], vertex_count := 3 }

/-- Second opaque drawable of `mat_A`. -/
def mesh_A2 : Mesh :=
  { mesh_id := 2, material := MaterialInstance.new mat_A "iA2"
    parent_key := 0, buffers := [20], vertex_count := 6 }

/-- A transparent drawable of `mat_B`. -/
def mesh_B1 : Mesh :=
  { mesh_id := 3, material := MaterialInstance.new mat_B "iB1"
    parent_key := 1, buffers := [30], vertex_count := 3 }

/-- A repository with two opaque drawables sharing one material and one
transparent drawable of another. -/
def demo_repository : MeshRepository := [(0, [mesh_A1, mesh_A2]), (1, [mesh_B1])]

/-- A material with a nonempty shared uniform set. -/
def mat_C : Material :=
  { Material.new "vC" "fC" "CM" with
      shared_uniforms := [("u_Color", { name := "u_Color", location := none })] }

/-- A drawable of `mat_C`. -/
def mesh_C : Mesh :=
  { mesh_id := 4, material := MaterialInstance.new mat_C "iC"
    parent_key := 0, buffers := [40], vertex_count := 3 }

/-- A repository with a single drawable whose material has a shared
uniform. -/
def shared_repository : MeshRepository := [(0, [mesh_C])]

/-- An enabled ambient-shaped light entity (no transform, no direction,
no cone). -/
def ambient_entity {M D C : Type} (l : Light) : LightEntity M D C :=
  { light := l, enabled := true, transform := none, direction := none, cone := none }

/-- A red light of intensity one. -/
def red_light : Light := { color := (1, 0, 0), intensity := 1, attenuation := 0 }

/-- A blue light of intensity one. -/
def blue_light : Light := { color := (0, 0, 1), intensity := 1, attenuation := 0 }

/-! ## Helper lemmas -/

/-- The bucket scan of `sort_objects` partitions its input: the opaque
accumulator receives the non-transparent drawables and the transparent
accumulator the transparent ones, both in scan order. -/
theorem foldl_sort_step (l : List Mesh) (o t : List Mesh) :
    l.foldl sort_step (o, t)
      = (o ++ l.filter (fun m => !m.is_transparent),
         t ++ l.filter (fun m => m.is_transparent)) := by
  induction l generalizing o t with
  | nil => simp
  | cons m rest ih =>
    by_cases h : m.is_transparent = true <;>
      simp [sort_step, h, ih, List.filter_cons]

/-- `sort_objects` is the non-transparent drawables of the repository
followed by the transparent ones. -/
theorem sort_objects_eq (repo : MeshRepository) :
    sort_objects repo
      = (MeshRepository.all repo).filter (fun m => !m.is_transparent)
        ++ (MeshRepository.all repo).filter (fun m => m.is_transparent) := by
  simp [sort_objects, foldl_sort_step]

/-- `sort_objects` permutes the registered drawables. -/
theorem sort_objects_perm (repo : MeshRepository) :
    (sort_objects repo).Perm (MeshRepository.all repo) := by
  rw [sort_objects_eq]
  exact List.perm_append_comm.trans
    (List.filter_append_perm (fun m => m.is_transparent) (MeshRepository.all repo))

/-- The draw loop of `render_objects` equals the boundary-indexed trace:
each drawable paired with the key of its predecessor (the seed key before
the first) contributes its `amended_piece`. -/
theorem render_objects_loop_eq_zip (ms : List Mesh) (prev : Nat) :
    render_objects_loop ms prev
      = (List.map amended_piece
          (ms.zip (prev :: List.map Mesh.parent_key ms))).flatten := by
  induction ms generalizing prev with
  | nil => rfl
  | cons m rest ih =>
    by_cases h : m.parent_key = prev
    · simp [render_objects_loop, amended_piece, h, ih]
    · simp [render_objects_loop, amended_piece, h, ih]

/-- One step of the lighting fold, characterized by the four shape
classifiers. -/
theorem foldl_lighting_step {M D C : Type} (l : List (LightEntity M D C))
    (repo : LightRepository M D C) (amb : Light) (flag : Bool) :
    l.foldl lighting_step (repo, amb, flag)
      = ({ repo with
            directional := repo.directional ++ l.filterMap (fun e =>
              match e.direction, e.cone with
              | some d, none => some (e.light, d)
              | _, _ => none)
            point := repo.point ++ l.filterMap (fun e =>
              match e.transform, e.cone, e.direction with
              | some t, none, none => some (e.light, t.get_world_matrix)
              | _, _, _ => none)
            spot := repo.spot ++ l.filterMap (fun e =>
              match e.direction, e.cone, e.transform with
              | some d, some cone, some t =>
                some (e.light, t.get_world_matrix, d, cone)
              | _, _, _ => none) },
         (l.filterMap (fun e =>
            match e.transform, e.cone, e.direction with
            | none, none, none => some e.light
            | _, _, _ => none)).foldl ambient_blend_step amb,
         flag || !(l.filterMap (fun e =>
            match e.transform, e.cone, e.direction with
            | none, none, none => some e.light
            | _, _, _ => none)).isEmpty) := by
  induction l generalizing repo amb flag with
  | nil => simp
  | cons e rest ih =>
    rcases hd : e.direction with _ | d <;> rcases hc : e.cone with _ | cone <;>
      rcases ht : e.transform with _ | t <;>
        simp [lighting_step, hd, hc, ht, ih, List.filterMap_cons,
          ambient_blend_step]

/-- `LightingSystem.run` rebuilds the repository as the four
specification-side buckets. -/
theorem lighting_run_eq {M D C : Type} (entities : List (LightEntity M D C))
    (r : LightRepository M D C) :
    LightingSystem.run entities r
      = { ambiant := ambient_of entities
          directional := directional_of entities
          point := point_of entities
          spot := spot_of entities } := by
  simp only [LightingSystem.run, foldl_lighting_step]
  by_cases h :
      ((entities.filter (fun e => e.enabled)).filterMap (fun e =>
        match e.transform, e.cone, e.direction with
        | none, none, none => some e.light
        | _, _, _ => none)).isEmpty = true <;>
    simp [h, ambient_of, ambient_lights_of, directional_of, point_of, spot_of]

/-- `Material.compile` always leaves `lookup_done` cleared, whatever the
device answers. -/
theorem compile_lookup_done_false (context : GlContext) (m : Material)
    (light_config : LightConfiguration) :
    (m.compile context light_config).1.lookup_done = false := by
  simp only [Material.compile]
  split
  · rfl
  · split
    · rfl
    · split <;> rfl

/-! ## Claims -/

/-- C1: the claim states that immediately after a successful
`compile(cfg)` on a lit material, `should_compile(cfg)` with that same
configuration returns false.  The code violates this: `compile` never
records the configuration it compiled against (the `light_configuration`
field keeps its previous value, here the all-zero default), so on a lit
material freshly and successfully compiled against the configuration
(1,0,0), `should_compile` with that very configuration still returns
true. -/
theorem should_compile_true_after_successful_compile :
    (Material.new "Light" "void main" "mat").lit = true ∧
    ((Material.new "Light" "void main" "mat").compile ctx_all_ok
        { directional := 1, point := 0, spot := 0 }).2 = Except.ok () ∧
    (((Material.new "Light" "void main" "mat").compile ctx_all_ok
        { directional := 1, point := 0, spot := 0 }).1.should_compile
        { directional := 1, point := 0, spot := 0 }) = true :=
  ⟨rfl, rfl, rfl⟩

/-- C2 counterexample: the claim requires the renderer, at every
material-key boundary, to push the shared view-projection uniform AND
the other shared uniforms of the material.  On a repository with a
single drawable whose material carries the shared uniform `u_Color`, the
trace `render_objects` actually produces differs from the trace the
claim describes: no shared uniform other than the view-projection matrix
is ever pushed. -/
theorem render_objects_misses_shared_uniform_push :
    render_objects shared_repository ≠ render_objects_claimed shared_repository := by
  decide

/-- C2 (amended): during `render_objects`, at every material-key
boundary of the sorted drawable list (the key of the current drawable
differs from the key of the previous one, with the sentinel
`u32::max_value()` before the first drawable), the renderer activates
the program of that material and pushes the shared view-projection
uniform — and only that uniform; the other shared uniforms of the
material are never pushed — exactly once per boundary and never
per-drawable. -/
theorem render_objects_matches_amended_trace (repo : MeshRepository) :
    render_objects repo = render_objects_amended repo := by
  simp [render_objects, render_objects_amended, render_objects_loop_eq_zip]

/-- C3: when `compile` fails because a shader stage fails to compile or
the link step fails (object creation itself succeeding), the call
returns an error that carries the backend-provided diagnostic text (with
the fixed fallback text when the backend reports no log), and the
previously stored program of the material is left unchanged. -/
theorem compile_failure_preserves_program (context : GlContext) (m : Material)
    (light_config : LightConfiguration)
    (hcv : context.create_shader VERTEX_SHADER = true)
    (hcf : context.create_shader FRAGMENT_SHADER = true)
    (hcp : context.create_program = true)
    (hfail :
      context.compile_ok VERTEX_SHADER
          (Material.replace_light_constants m.vertex_shader light_config) = false ∨
      context.compile_ok FRAGMENT_SHADER
          (Material.replace_light_constants m.fragment_shader light_config) = false ∨
      context.link_ok
          { shader_type := VERTEX_SHADER
            source := Material.replace_light_constants m.vertex_shader light_config }
          { shader_type := FRAGMENT_SHADER
            source := Material.replace_light_constants m.fragment_shader light_config }
        = false) :
    (m.compile context light_config).1.program = m.program ∧
    ∃ e, (m.compile context light_config).2 = Except.error e ∧
      (e = (context.shader_info_log VERTEX_SHADER
              (Material.replace_light_constants m.vertex_shader light_config)).getD
              "Unknown error creating shader" ∨
       e = (context.shader_info_log FRAGMENT_SHADER
              (Material.replace_light_constants m.fragment_shader light_config)).getD
              "Unknown error creating shader" ∨
       e = (context.program_info_log
              { shader_type := VERTEX_SHADER
                source := Material.replace_light_constants m.vertex_shader light_config }
              { shader_type := FRAGMENT_SHADER
                source := Material.replace_light_constants m.fragment_shader light_config }).getD
              "Unknown error creating program object") := by
  by_cases hv : context.compile_ok VERTEX_SHADER
      (Material.replace_light_constants m.vertex_shader light_config) = true
  · by_cases hf : context.compile_ok FRAGMENT_SHADER
        (Material.replace_light_constants m.fragment_shader light_config) = true
    · have hl : context.link_ok
          { shader_type := VERTEX_SHADER
            source := Material.replace_light_constants m.vertex_shader light_config }
          { shader_type := FRAGMENT_SHADER
            source := Material.replace_light_constants m.fragment_shader light_config }
          = false := by
        rcases hfail with h | h | h
        · rw [hv] at h; exact absurd h (by simp)
        · rw [hf] at h; exact absurd h (by simp)
        · exact h
      refine ⟨?_, ⟨_, ?_, Or.inr (Or.inr rfl)⟩⟩ <;>
        simp [Material.compile, compile_shader, link_program, hcv, hcf, hcp,
          hv, hf, hl]
    · have hf' : context.compile_ok FRAGMENT_SHADER
          (Material.replace_light_constants m.fragment_shader light_config)
          = false := by simpa using hf
      refine ⟨?_, ⟨_, ?_, Or.inr (Or.inl rfl)⟩⟩ <;>
        simp [Material.compile, compile_shader, hcv, hcf, hv, hf']
  · have hv' : context.compile_ok VERTEX_SHADER
        (Material.replace_light_constants m.vertex_shader light_config)
        = false := by simpa using hv
    refine ⟨?_, ⟨_, ?_, Or.inl rfl⟩⟩ <;>
      simp [Material.compile, compile_shader, hcv, hv']

/-- Witness for C3 at a concrete input: on a device where every stage
fails with the log `"ERROR: 0:1: syntax error"`, compiling a material
that already owns a program fails with that diagnostic and keeps the old
program. -/
theorem compile_failure_preserves_program_witness :
    (mat_with_program.compile ctx_stage_fails
        { directional := 0, point := 0, spot := 0 }).1.program
      = mat_with_program.program ∧
    ∃ e, (mat_with_program.compile ctx_stage_fails
        { directional := 0, point := 0, spot := 0 }).2 = Except.error e ∧
      (e = (ctx_stage_fails.shader_info_log VERTEX_SHADER
              (Material.replace_light_constants mat_with_program.vertex_shader
                { directional := 0, point := 0, spot := 0 })).getD
              "Unknown error creating shader" ∨
       e = (ctx_stage_fails.shader_info_log FRAGMENT_SHADER
              (Material.replace_light_constants mat_with_program.fragment_shader
                { directional := 0, point := 0, spot := 0 })).getD
              "Unknown error creating shader" ∨
       e = (ctx_stage_fails.program_info_log
              { shader_type := VERTEX_SHADER
                source := Material.replace_light_constants mat_with_program.vertex_shader
                  { directional := 0, point := 0, spot := 0 } }
              { shader_type := FRAGMENT_SHADER
                source := Material.replace_light_constants mat_with_program.fragment_shader
                  { directional := 0, point := 0, spot := 0 } }).getD
              "Unknown error creating program object") :=
  compile_failure_preserves_program ctx_stage_fails mat_with_program
    { directional := 0, point := 0, spot := 0 } rfl rfl rfl (Or.inl rfl)

/-- In a concatenation of an all-opaque list and an all-transparent
list, an index holding an opaque drawable is smaller than any index
holding a transparent one. -/
theorem partition_index (l A B : List Mesh) (hl : l = A ++ B)
    (hA : ∀ m ∈ A, m.is_transparent = false)
    (hB : ∀ m ∈ B, m.is_transparent = true)
    (i j : Nat) (hi : i < l.length) (hj : j < l.length)
    (h1 : (l.get ⟨i, hi⟩).is_transparent = false)
    (h2 : (l.get ⟨j, hj⟩).is_transparent = true) : i < j := by
  subst hl
  rw [List.get_eq_getElem] at h1 h2
  by_cases hjA : j < A.length
  · exfalso
    have e : (A ++ B)[j] = A[j] := List.getElem_append_left hjA
    have hm : A[j] ∈ A := List.getElem_mem hjA
    have hfalse := hA _ hm
    rw [e] at h2
    rw [h2] at hfalse
    exact absurd hfalse (by decide)
  · by_cases hiA : i < A.length
    · exact Nat.lt_of_lt_of_le hiA (Nat.not_lt.mp hjA)
    · exfalso
      have hiA' : A.length ≤ i := Nat.not_lt.mp hiA
      have hbound : i - A.length < B.length := by
        rw [List.length_append] at hi; omega
      have e : (A ++ B)[i] = B[i - A.length] :=
        List.getElem_append_right hiA'
      have hm : B[i - A.length] ∈ B := List.getElem_mem hbound
      have htrue := hB _ hm
      rw [e] at h1
      rw [h1] at htrue
      exact absurd htrue (by decide)

/-- C4: `sort_objects` returns a list containing each registered
drawable exactly as often as the repository does (so each registered
mesh exactly once when registration was unique), and in the returned
list every opaque drawable precedes every transparent one. -/
theorem sort_objects_partition (repo : MeshRepository) :
    (∀ m : Mesh, (sort_objects repo).count m = (MeshRepository.all repo).count m) ∧
    (∀ (i j : Nat) (hi : i < (sort_objects repo).length)
        (hj : j < (sort_objects repo).length),
      ((sort_objects repo).get ⟨i, hi⟩).is_transparent = false →
      ((sort_objects repo).get ⟨j, hj⟩).is_transparent = true → i < j) := by
  constructor
  · intro m
    exact (sort_objects_perm repo).count_eq m
  · intro i j hi hj hio hjt
    refine partition_index (sort_objects repo)
      ((MeshRepository.all repo).filter (fun m => !m.is_transparent))
      ((MeshRepository.all repo).filter (fun m => m.is_transparent))
      (sort_objects_eq repo) ?_ ?_ i j hi hj hio hjt
    · intro m hm
      have := (List.mem_filter.mp hm).2
      simpa using this
    · intro m hm
      exact (List.mem_filter.mp hm).2

/-- Witness for C4 on the demo repository (two opaque drawables of
material A, one transparent drawable of material B): the sorted list has
three drawables and the opaque one at index 0 precedes the transparent
one at index 2. -/
theorem sort_objects_partition_witness :
    (sort_objects demo_repository).length = 3 ∧ (0 : Nat) < 2 := by
  refine ⟨by decide,
    (sort_objects_partition demo_repository).2 0 2 (by decide) (by decide) ?_ ?_⟩ <;>
   decide

/-- C5: for every enabled light-emitting entity, classification follows
the shape precedence of the source: (direction, no cone) goes to the
directional bucket; (transform, no cone, no direction) to the point
bucket keyed by the world matrix; (direction, cone, transform) to the
spot bucket; (no transform, no cone, no direction) into the running
ambient blend; every entity matching none of these shapes contributes to
no bucket, as the four characterizations jointly show. -/
theorem lighting_classification_buckets {M D C : Type}
    (entities : List (LightEntity M D C)) (r : LightRepository M D C) :
    (LightingSystem.run entities r).directional = directional_of entities ∧
    (LightingSystem.run entities r).point = point_of entities ∧
    (LightingSystem.run entities r).spot = spot_of entities ∧
    (LightingSystem.run entities r).ambiant = ambient_of entities := by
  rw [lighting_run_eq]
  exact ⟨rfl, rfl, rfl, rfl⟩

/-- C6: the aggregated ambient light is the running blend starting from
color (0,0,0) and intensity 0, where each ambient-classified light
updates the color to `old_color * old_intensity + light.color *
light.intensity` and the intensity to `old_intensity + light.intensity`
(see `ambient_blend_step` and `ambient_of`); in particular a red and a
blue ambient light of intensity one registered in the same frame yield
color `red * 1 + blue * 1 = (1,0,1)` and intensity 2. -/
theorem ambient_running_blend {M D C : Type}
    (entities : List (LightEntity M D C)) (r : LightRepository M D C) :
    (LightingSystem.run entities r).ambiant = ambient_of entities ∧
    (LightingSystem.run
        [ambient_entity red_light, ambient_entity blue_light]
        ({ ambiant := none, directional := [], point := [], spot := [] } :
          LightRepository M D C)).ambiant
      = some { color := (1, 0, 1), intensity := 2, attenuation := 0 } := by
  constructor
  · rw [lighting_run_eq]
  · norm_num [LightingSystem.run, lighting_step, ambient_entity, red_light,
      blue_light, vadd, vscale]

/-- C7: the lighting system rebuilds the four buckets from the current
entities alone — running it on the same entity list from any two initial
repository contents yields identical final repositories. -/
theorem lighting_rebuilds_from_scratch {M D C : Type}
    (entities : List (LightEntity M D C)) (r1 r2 : LightRepository M D C) :
    LightingSystem.run entities r1 = LightingSystem.run entities r2 :=
  (lighting_run_eq entities r1).trans (lighting_run_eq entities r2).symm

/-- C8 counterexample: the claim states that a successful recompile of
the parent material resets the lookup status of a Resolved instance to
Unresolved.  On the code it does not: after `lit_material` (the parent
of the Resolved instance `inst_resolved`) recompiles successfully, the
instance is still Resolved (`lookup_done = true`) and its next
`lookup_locations` call is a no-op that re-resolves nothing. -/
theorem instance_stays_resolved_after_parent_recompile :
    (lit_material.compile ctx_all_ok
        { directional := 1, point := 0, spot := 0 }).2 = Except.ok () ∧
    (inst_resolved.withParent
        (lit_material.compile ctx_all_ok
          { directional := 1, point := 0, spot := 0 }).1).lookup_done = true ∧
    (inst_resolved.withParent
        (lit_material.compile ctx_all_ok
          { directional := 1, point := 0, spot := 0 }).1).lookup_locations
        ctx_all_ok { directional := 1, point := 0, spot := 0 }
      = (inst_resolved.withParent
          (lit_material.compile ctx_all_ok
            { directional := 1, point := 0, spot := 0 }).1, []) :=
  ⟨rfl, rfl, rfl⟩

/-- C8 (amended): a recompile of the parent material resets the parent
lookup status, but the lookup status of the instance is NOT reset: an
instance whose lookup status is Resolved stays Resolved after the parent
recompiles, and its next `lookup_locations` call is a no-op that
re-resolves nothing against the new program. -/
theorem parent_recompile_leaves_instance_resolved (context : GlContext)
    (light_config : LightConfiguration) (inst : MaterialInstance)
    (h : inst.lookup_done = true) :
    ((inst.parent_material.compile context light_config).1.lookup_done = false) ∧
    (inst.withParent
        (inst.parent_material.compile context light_config).1).lookup_done = true ∧
    (inst.withParent
        (inst.parent_material.compile context light_config).1).lookup_locations
        context light_config
      = (inst.withParent
          (inst.parent_material.compile context light_config).1, []) := by
  refine ⟨compile_lookup_done_false context inst.parent_material light_config,
    ?_, ?_⟩
  · simpa [MaterialInstance.withParent] using h
  · simp [MaterialInstance.lookup_locations, MaterialInstance.withParent, h]

/-- Witness for the amended C8 at a concrete input. -/
theorem parent_recompile_leaves_instance_resolved_witness :
    inst_resolved.lookup_done = true ∧
    (inst_resolved.withParent
        (inst_resolved.parent_material.compile ctx_all_ok
          { directional := 1, point := 0, spot := 0 }).1).lookup_locations
        ctx_all_ok { directional := 1, point := 0, spot := 0 }
      = (inst_resolved.withParent
          (inst_resolved.parent_material.compile ctx_all_ok
            { directional := 1, point := 0, spot := 0 }).1, []) :=
  ⟨rfl, (parent_recompile_leaves_instance_resolved ctx_all_ok
      { directional := 1, point := 0, spot := 0 } inst_resolved rfl).2.2⟩

/-- C9: the first `lookup_locations` call on an unresolved instance
forces the parent lookup (its parent afterwards is exactly the result of
the parent lookup, resolving the parent if it was unresolved), marks the
instance resolved, and issues the parent device queries before the
instance-uniform queries; a second call on the result is a no-op issuing
no device queries. -/
theorem instance_lookup_parent_first_then_noop (context : GlContext)
    (light_config : LightConfiguration) (inst : MaterialInstance)
    (h : inst.lookup_done = false) :
    ((inst.lookup_locations context light_config).1.parent_material
        = (inst.parent_material.lookup_locations context light_config).1) ∧
    ((inst.lookup_locations context light_config).1.lookup_done = true) ∧
    ((inst.lookup_locations context light_config).2
        = (inst.parent_material.lookup_locations context light_config).2
          ++ (lookupUniformList context
              (inst.parent_material.lookup_locations context light_config).1.program
              inst.uniforms).2) ∧
    ((inst.lookup_locations context light_config).1.lookup_locations
        context light_config
      = ((inst.lookup_locations context light_config).1, [])) := by
  simp [MaterialInstance.lookup_locations, h]

/-- Witness for C9 at a concrete input: a fresh instance with one
instance uniform over a parent with one shared uniform. -/
theorem instance_lookup_parent_first_then_noop_witness :
    inst_unresolved.lookup_done = false ∧
    ((inst_unresolved.lookup_locations ctx_all_ok
        { directional := 0, point := 0, spot := 0 }).1.lookup_locations ctx_all_ok
        { directional := 0, point := 0, spot := 0 }
      = ((inst_unresolved.lookup_locations ctx_all_ok
          { directional := 0, point := 0, spot := 0 }).1, [])) :=
  ⟨rfl, (instance_lookup_parent_first_then_noop ctx_all_ok
      { directional := 0, point := 0, spot := 0 } inst_unresolved rfl).2.2.2⟩

/-- C10: a material built by `Material::new` is opaque by default
(`is_transparent` returns false), `is_transparent` returns exactly the
argument of the most recent `set_transparent` call, and
`MaterialInstance::is_transparent` always returns the current value of
its parent material. -/
theorem material_transparency_default_and_setter :
    (∀ vert frag id, (Material.new vert frag id).is_transparent = false) ∧
    (∀ (m : Material) (b : Bool), (m.set_transparent b).is_transparent = b) ∧
    (∀ inst : MaterialInstance,
      inst.is_transparent = inst.parent_material.is_transparent) := by
  refine ⟨fun _ _ _ => rfl, fun m b => ?_, fun _ => rfl⟩
  cases b <;> rfl
